import Mathlib

/-!
Shallow embedding of the interview-session core of the Ctrl-Hire
voice interview practice system
(`src/voice_interview_practice_system/main.py` and
`src/voice_interview_practice_system/streamlit_app.py`),
together with proofs of the documented testable properties.

External collaborators (the LLM backend, the TTS/STT engines, the file
system) are modelled as explicit inputs: the backend message content is a
string, JSON parsing is an explicit `String → Option _` parameter standing
for `json.loads`, transcription is an outcome value, and the set of files
on disk is a list of path strings.
-/

namespace CtrlHire

/-- Python truthiness of an optional string: `None` and `""` are falsy,
every other string is truthy (used for `if persona and not
interviewer_persona`, `if not api_key`, …). -/
def pTruthy : Option String → Bool
  | none => false
  | some s => !(s == "")

/-- Drop leading whitespace characters from a character list. -/
def dropWhileWs : List Char → List Char
  | [] => []
  | c :: cs => if c.isWhitespace then dropWhileWs cs else c :: cs

/-- Model of Python's `str.strip()`: remove leading and trailing
whitespace (structurally recursive so that concrete runs evaluate). -/
def pyStrip (s : String) : String :=
  ⟨(dropWhileWs (dropWhileWs s.data).reverse).reverse⟩

/-- Model of Python's `str.lower()` (ASCII case folding). -/
def pyLower (s : String) : String :=
  ⟨s.data.map Char.toLower⟩

/-- Candidate profile built at session start (`main.py` lines 514–519,
`streamlit_app.py` lines 156–163; the CLI leaves `job_description` unset). -/
structure CandidateProfile where
  user_name : String
  target_role : String
  experience_level : String
  company_type : String
  job_description : Option String
deriving DecidableEq, Repr

/-- Structured verdict returned by the technical-answer evaluation; the
Streamlit page reads its `short_verdict` key (`streamlit_app.py` line 504). -/
structure TechEval where
  short_verdict : Option String
deriving DecidableEq, Repr

/-- One committed question/answer record as stored in `qa_list`
(`main.py` lines 614–619, `streamlit_app.py` lines 196–201). -/
structure QAEntry where
  turn : Nat
  round : String
  question : String
  answer_text : String
  technical_evaluation : Option TechEval
deriving DecidableEq, Repr

/-- The `next_question` object of a parsed interviewer response; fields are
optional because the code reads them with `.get(…, default)`. -/
structure NextQuestionJson where
  question_type : Option String
  skill_tags : Option (List String)
  text : Option String
deriving DecidableEq, Repr

/-- A parsed interviewer response as a JSON object; each field is optional
(missing key or JSON `null`), matching the `.get` accesses in the code. -/
structure InterviewerJson where
  persona : Option String
  next_round : Option String
  next_question : Option NextQuestionJson
  end_interview : Option Bool
deriving DecidableEq, Repr

/-- The `next_question` default `{}` used by
`question_struct.get("next_question", \x7b\x7d) or \x7b\x7d`. -/
def defaultNextQuestion : NextQuestionJson :=
  { question_type := none, skill_tags := none, text := none }

/-- The `{}` default used when `current_question_struct` is unset. -/
def emptyInterviewerJson : InterviewerJson :=
  { persona := none, next_round := none, next_question := none, end_interview := none }

/-- A parsed coach response carrying the wire-contract fields of the coach
adapter (scores are small integers). -/
structure CoachJson where
  overall_summary : Option String
  dimension_scores : Option (List (String × Int))
  strengths : Option (List String)
  improvement_areas : Option (List String)
  per_round_feedback : Option (List (String × String))
  inferred_technical_skills : Option (List String)
  sample_improved_answers : Option (List (String × String))
deriving DecidableEq, Repr

/-- Result of `_analyze_with_coach`: either the parsed JSON object, or the
degraded `{"raw_feedback": content}` object built on `json.JSONDecodeError`
(`main.py` lines 490–494). -/
inductive CoachResult where
  | parsed (fb : CoachJson)
  | raw_feedback (content : String)
deriving DecidableEq, Repr

/-- The per-session record persisted as the session JSON file
(`main.py` lines 526–532, `streamlit_app.py` lines 165–171). -/
structure SessionData where
  candidate_profile : CandidateProfile
  feedback_mode : String
  qa_list : List QAEntry
  interviewer_persona : Option String
  created_at_utc : String
  coach_feedback : Option CoachResult
deriving DecidableEq, Repr

/-! ## Agent adapters (`main.py` lines 422–494)

The network call is abstracted: `content` is the message content returned by
the backend and `parse` stands for `json.loads` restricted to the expected
shape (`parse content = none` exactly when the content is not valid JSON of
that shape). -/

/-- The degraded response synthesized by `_ask_interviewer_question` when
`json.loads` raises (`main.py` lines 451–461). -/
def degradedInterviewerJson (content : String) : InterviewerJson :=
  { persona := none
    next_round := some "unknown"
    next_question := some
      { question_type := some "generic", skill_tags := some [], text := some content }
    end_interview := some false }

/-- Model of `_ask_interviewer_question` (`main.py` lines 422–461): parse the
backend content, degrading to `degradedInterviewerJson` on parse failure. -/
def ask_interviewer_question (parse : String → Option InterviewerJson)
    (content : String) : InterviewerJson :=
  match parse content with
  | some j => j
  | none => degradedInterviewerJson content

/-- Model of `_analyze_with_coach` (`main.py` lines 464–494): parse the
backend content, degrading to `raw_feedback content` on parse failure. -/
def analyze_with_coach (parse : String → Option CoachJson)
    (content : String) : CoachResult :=
  match parse content with
  | some fb => CoachResult.parsed fb
  | none => CoachResult.raw_feedback content

/-! ## Answer capture (`main.py` lines 267–326 and 589–609) -/

/-- Possible outcomes of `_transcribe_with_whisper` on a recorded file:
the success case carries `result.get("text")` (possibly `None`), and every
failure branch of the function prints a message and returns `""`. -/
inductive TranscribeOutcome where
  | transcribed (text : Option String)
  | noFfmpeg
  | fileMissing
  | fileNotReadable
  | cancelledByUser
  | engineError
deriving DecidableEq, Repr

/-- Model of `_transcribe_with_whisper` (`main.py` lines 267–326): on
success it returns `(result.get("text") or "").strip()`; on every failure
branch (missing ffmpeg, missing or unreadable file, user cancellation,
engine exception) it returns the empty string instead of raising. -/
def transcribe_with_whisper : TranscribeOutcome → String
  | TranscribeOutcome.transcribed t => pyStrip (t.getD "")
  | _ => ""

/-- Model of the per-turn answer acquisition in
`_start_voice_interview_session` (`main.py` lines 592–602): if recording
succeeded, transcribe, and fall back to the typed answer when the
transcription strips to empty; if recording failed, go straight to the
typed fallback.  `transcribed` is the value returned by
`transcribe_with_whisper`; `typed` is the manual input. -/
def capture_answer (recorded : Bool) (transcribed : String) (typed : String) : String :=
  if recorded then
    if pyStrip transcribed == "" then pyStrip typed else transcribed
  else pyStrip typed

/-! ## Backend client acquisition (`main.py` lines 329–348) -/

/-- Model of `_get_openrouter_client`: `api_key` is `os.getenv` of
`OPENROUTER_API_KEY` (`none` when unset), `constructOk` records whether the
client constructor succeeds.  The function raises (`Except.error`) exactly
when the key is falsy or construction fails; the client itself is out of
scope and modelled as `Unit`. -/
def get_openrouter_client (api_key : Option String) (constructOk : Bool) :
    Except String Unit :=
  if !(pTruthy api_key) then
    Except.error "OPENROUTER_API_KEY is not set. Please export it to use OpenRouter."
  else if constructOk then
    Except.ok ()
  else
    Except.error "Failed to initialize OpenRouter client"

/-! ## CLI interview loop (`main.py` lines 497–650)

One loop iteration is `cliTurn`; the whole `while True` loop over a finite
script of external inputs is `cliRun`.  Each turn's interviewer response is
an input (it is the value `ask_interviewer_question` produced from the
backend for that turn), as are the recording result, the transcription
outcome, the typed fallback and the continue-prompt reply. -/

/-- In-memory state of `_start_voice_interview_session`:
`session_data` is the dict written to the session file, `conversation_state`
is `conversation_state["qa_list"]` (the history fed to the interviewer),
`persisted` is the last full snapshot written to disk (`none` before the
first write). -/
structure CliState where
  session_data : SessionData
  conversation_state : List QAEntry
  latest_answer_text : String
  interviewer_persona : Option String
  turn_index : Nat
  persisted : Option SessionData
deriving DecidableEq, Repr

/-- External inputs consumed by one CLI loop iteration. -/
structure TurnInput where
  response : InterviewerJson
  recorded : Bool
  transcribe_outcome : TranscribeOutcome
  typed_fallback : String
  continue_choice : String
deriving DecidableEq, Repr

/-- Why the CLI loop broke out of `while True`. -/
inductive StopReason where
  | endSignal
  | userQuit
deriving DecidableEq, Repr

/-- Result of one CLI loop iteration: the successor state, whether (and why)
the loop breaks, and whether the continue prompt was shown. -/
structure TurnResult where
  state : CliState
  stop : Option StopReason
  prompted_next : Bool
deriving DecidableEq, Repr

/-- The persona block shared by `main.py` lines 563–567 and
`streamlit_app.py` lines 414–417: `if persona and not interviewer_persona:`
store the persona in both the in-memory variable and the session record. -/
def update_persona (current : Option String) (sd : SessionData)
    (respPersona : Option String) : Option String × SessionData :=
  if pTruthy respPersona && !(pTruthy current) then
    (respPersona, { sd with interviewer_persona := respPersona })
  else
    (current, sd)

/-- The state-updating part of one CLI loop iteration (`main.py` lines
550–624): bump `turn_index`, run the persona block, extract round/question
with the `.get` defaults, capture the answer, append the QA entry to
`session_data["qa_list"]`, re-point `conversation_state["qa_list"]` at it,
and write the full snapshot to the session file. -/
def cliCommit (st : CliState) (inp : TurnInput) : CliState :=
  let turn_index := st.turn_index + 1
  let resp := inp.response
  let ps := update_persona st.interviewer_persona st.session_data resp.persona
  let next_round := resp.next_round.getD "unknown"
  let nq := resp.next_question.getD defaultNextQuestion
  let question_text := nq.text.getD "Please answer this question."
  let answer_text :=
    capture_answer inp.recorded (transcribe_with_whisper inp.transcribe_outcome)
      inp.typed_fallback
  let qa_entry : QAEntry :=
    { turn := turn_index, round := next_round, question := question_text,
      answer_text := answer_text, technical_evaluation := none }
  let qa := ps.2.qa_list ++ [qa_entry]
  let sd := { ps.2 with qa_list := qa }
  { session_data := sd
    conversation_state := qa
    latest_answer_text := answer_text
    interviewer_persona := ps.1
    turn_index := turn_index
    persisted := some sd }

/-- One CLI loop iteration (`main.py` lines 550–633): commit the turn, then
break on `end_interview`, otherwise show the continue prompt and break when
the stripped, lowercased reply is `"q"`. -/
def cliTurn (st : CliState) (inp : TurnInput) : TurnResult :=
  let end_interview := inp.response.end_interview.getD false
  { state := cliCommit st inp
    stop :=
      if end_interview then some StopReason.endSignal
      else if pyLower (pyStrip inp.continue_choice) == "q" then some StopReason.userQuit
      else none
    prompted_next := !end_interview }

/-- The stop decision of a turn depends only on the turn's inputs. -/
def stopOf (inp : TurnInput) : Option StopReason :=
  if inp.response.end_interview.getD false then some StopReason.endSignal
  else if pyLower (pyStrip inp.continue_choice) == "q" then some StopReason.userQuit
  else none

/-- Run the CLI loop over a finite script of turn inputs.  Returns the final
state, the stop reason (`none` when the script was exhausted with the loop
still awaiting further input), and the number of turns executed — each
executed turn performs exactly one `_ask_interviewer_question` call. -/
def cliRun : CliState → List TurnInput → CliState × Option StopReason × Nat
  | st, [] => (st, none, 0)
  | st, inp :: rest =>
    match (cliTurn st inp).stop with
    | some reason => ((cliTurn st inp).state, some reason, 1)
    | none =>
      ((cliRun (cliTurn st inp).state rest).1,
        (cliRun (cliTurn st inp).state rest).2.1,
        (cliRun (cliTurn st inp).state rest).2.2 + 1)

/-- First stop decision along a script (the reason the loop would break). -/
def firstStop : List TurnInput → Option StopReason
  | [] => none
  | inp :: rest =>
    match stopOf inp with
    | some r => some r
    | none => firstStop rest

/-- Number of turns the loop executes on a script before breaking (all of
them when no turn breaks). -/
def turnsTaken : List TurnInput → Nat
  | [] => 0
  | inp :: rest =>
    match stopOf inp with
    | some _ => 1
    | none => turnsTaken rest + 1

/-- The fresh session record built at session start (`main.py` lines
526–532). -/
def initialSessionData (profile : CandidateProfile) (feedback_mode : String)
    (timestamp : String) : SessionData :=
  { candidate_profile := profile
    feedback_mode := feedback_mode
    qa_list := []
    interviewer_persona := none
    created_at_utc := timestamp
    coach_feedback := none }

/-- The in-memory state just before the first CLI loop iteration
(`main.py` lines 526–549). -/
def initialCliState (profile : CandidateProfile) (feedback_mode : String)
    (timestamp : String) : CliState :=
  { session_data := initialSessionData profile feedback_mode timestamp
    conversation_state := []
    latest_answer_text := ""
    interviewer_persona := none
    turn_index := 0
    persisted := none }

/-- Model of `_start_voice_interview_session` up to the coach stage
(`main.py` lines 497–633): the OpenRouter client is acquired before the
loop starts (line 541); if that raises, the session aborts with the error
and no interviewer call is ever made. -/
def start_voice_interview_session (api_key : Option String) (constructOk : Bool)
    (profile : CandidateProfile) (feedback_mode timestamp : String)
    (script : List TurnInput) :
    Except String (CliState × Option StopReason × Nat) :=
  match get_openrouter_client api_key constructOk with
  | Except.error e => Except.error e
  | Except.ok _ =>
    Except.ok (cliRun (initialCliState profile feedback_mode timestamp) script)

/-- Number of interviewer-agent calls a session outcome performed. -/
def sessionAgentCalls : Except String (CliState × Option StopReason × Nat) → Nat
  | Except.error _ => 0
  | Except.ok r => r.2.2

/-! ## Streamlit session state (`streamlit_app.py`) -/

/-- The `phase` value of the Streamlit state machine. -/
inductive Phase where
  | idle
  | awaitConsent
  | awaitAnswer
  | awaitNext
  | finished
deriving DecidableEq, Repr

/-- The relevant slice of `st.session_state`; `persisted` is the last full
snapshot written to the session file. -/
structure StState where
  session_path : Option String
  session_data : SessionData
  conversation_state : List QAEntry
  latest_answer_text : String
  interviewer_persona : Option String
  phase : Phase
  current_question_struct : Option InterviewerJson
  current_round : Option String
  current_question_text : Option String
  current_end_interview : Bool
  persisted : Option SessionData
deriving DecidableEq, Repr

/-- Model of `_append_qa_to_session` (`streamlit_app.py` lines 191–207):
no-op without a session file; otherwise build the entry with
`turn = len(qa_list) + 1`, append it to `session_data["qa_list"]`, re-point
`conversation_state["qa_list"]` at the same list, and write the full
snapshot. -/
def append_qa_to_session (st : StState) (question_text round_label answer_text : String) :
    StState :=
  match st.session_path with
  | none => st
  | some _ =>
    let qa_entry : QAEntry :=
      { turn := st.session_data.qa_list.length + 1
        round := round_label
        question := question_text
        answer_text := answer_text
        technical_evaluation := none }
    let qa := st.session_data.qa_list ++ [qa_entry]
    let sd := { st.session_data with qa_list := qa }
    { st with session_data := sd, conversation_state := qa, persisted := some sd }

/-- Model of the question-fetch button handler (`streamlit_app.py` lines
398–444): call the interviewer adapter, run the persona block, extract
round/question/end flag with the `.get` defaults, and move to the
await-answer phase. -/
def st_fetch_question (st : StState) (parse : String → Option InterviewerJson)
    (content : String) : StState :=
  let question_struct := ask_interviewer_question parse content
  let ps := update_persona st.interviewer_persona st.session_data question_struct.persona
  let next_round := question_struct.next_round.getD "unknown"
  let nq := question_struct.next_question.getD defaultNextQuestion
  let question_text := nq.text.getD "Please answer this question."
  let end_interview := question_struct.end_interview.getD false
  { st with
    current_question_struct := some question_struct
    interviewer_persona := ps.1
    session_data := ps.2
    current_round := some next_round
    current_question_text := some question_text
    current_end_interview := end_interview
    phase := Phase.awaitAnswer }

/-- Model of the coding-question test (`streamlit_app.py` lines 450–455):
lowercased skill tags intersect the technical tag set, or the lowercased
question type is one of the technical types. -/
def is_coding_question (question_type : String) (skill_tags : List String) : Bool :=
  let technical_tags := skill_tags.map pyLower
  (["dsa", "coding", "algorithm", "sql", "sql_query", "query"].any
      fun t => technical_tags.contains t)
    || ["technical", "coding", "dsa", "sql"].contains (pyLower question_type)

/-- The `(question_type, skill_tags)` pair read from
`current_question_struct` with the `.get` defaults (`streamlit_app.py`
lines 448–451). -/
def stQuestionMeta (st : StState) : String × List String :=
  let question_struct := (st.current_question_struct.getD emptyInterviewerJson)
  let nq := question_struct.next_question.getD defaultNextQuestion
  (pyLower (nq.question_type.getD ""), nq.skill_tags.getD [])

/-- Set the `technical_evaluation` key of the last list entry, leaving every
other field and every other entry unchanged (the in-place
`qa_list[-1]["technical_evaluation"] = tech_eval` of `streamlit_app.py`
line 494). -/
def setLastEval : List QAEntry → TechEval → List QAEntry
  | [], _ => []
  | [e], ev => [{ e with technical_evaluation := some ev }]
  | e :: f :: rest, ev => e :: setLastEval (f :: rest) ev

/-- Model of the evaluation attachment (`streamlit_app.py` lines 493–502):
if `qa_list` is non-empty, mutate its last entry in place and rewrite the
session file.  After `_append_qa_to_session`, `conversation_state["qa_list"]`
is the same list object as `session_data["qa_list"]`, so the in-place update
is visible through both names. -/
def attach_technical_evaluation (st : StState) (tech_eval : TechEval) : StState :=
  match st.session_data.qa_list with
  | [] => st
  | _ :: _ =>
    let qa := setLastEval st.session_data.qa_list tech_eval
    let sd := { st.session_data with qa_list := qa }
    { st with
      session_data := sd
      conversation_state := qa
      persisted :=
        match st.session_path with
        | some _ => some sd
        | none => st.persisted }

/-- Modelled from the spec: `_evaluate_technical_answer` is imported by the
Streamlit app from the main module, but its definition is not among the
provided source files.  The spec describes only its result — a "structured
verdict attached post-hoc for coding-type answers" — so it is modelled as
producing a structured verdict value. -/
def evaluate_technical_answer (verdict : String) : TechEval :=
  { short_verdict := some verdict }

/-- Model of the "Submit code answer" handler (`streamlit_app.py` lines
447–517).  The handler only runs in the await-answer phase with a current
question; a blank submission is rejected with a warning; otherwise the
answer is committed, the technical evaluation (`tech_eval`, the value the
`_evaluate_technical_answer` call returned) is attached to the last entry
and re-persisted, and the phase advances (straight to finished when the
response carried `end_interview`).  The round label is always set by the
time this phase is reached; the default covers the unreachable unset
case. -/
def st_submit_code (st : StState) (code_text : String) (tech_eval : TechEval) : StState :=
  if st.phase ≠ Phase.awaitAnswer then st
  else if !(pTruthy st.current_question_text) then st
  else if pyStrip code_text == "" then st
  else
    let question_text := st.current_question_text.getD ""
    let answer_text := pyStrip code_text
    let st1 := { st with latest_answer_text := answer_text }
    let st2 :=
      append_qa_to_session st1 question_text (st.current_round.getD "") answer_text
    let st3 := attach_technical_evaluation st2 tech_eval
    let st4 := { st3 with current_question_text := none }
    if st4.current_end_interview then { st4 with phase := Phase.finished }
    else { st4 with phase := Phase.awaitNext }

/-- Model of the coach page (`streamlit_app.py` lines 573–592): warn when no
Q&A data exists; otherwise run the coach adapter on the current `qa_list`,
store the feedback under `coach_feedback`, and rewrite the session file. -/
def coach_page (st : StState) (parse : String → Option CoachJson)
    (content : String) : StState :=
  match st.session_data.qa_list with
  | [] => st
  | _ :: _ =>
    let feedback := analyze_with_coach parse content
    let sd := { st.session_data with coach_feedback := some feedback }
    { st with
      session_data := sd
      persisted :=
        match st.session_path with
        | some _ => some sd
        | none => st.persisted }

/-! ## Temporary-file life cycle

The file system is modelled as the list of existing paths.  `unlink_if_exists`
models the guarded delete used in both cleanup blocks
(`if path.exists(): path.unlink()`). -/

/-- Guarded delete: remove the path when present. -/
def unlink_if_exists (fs : List String) (p : String) : List String :=
  if p ∈ fs then fs.filter (fun q => !(q == p)) else fs

/-- Outcome of the try-block body in the CLI capture step: it either
completes with a transcription outcome and a typed fallback, or raises. -/
inductive CaptureBody where
  | completes (outcome : TranscribeOutcome) (typed : String)
  | raises
deriving DecidableEq, Repr

/-- Model of the CLI capture-and-transcribe step acting on the file system
(`main.py` lines 589–609): recording may or may not leave the temp file on
disk (`fileCreated`) and reports success via `recorded`; the try-block body
then produces the answer (or raises), and the `finally` block deletes the
temp file when it exists, on every path. -/
def cli_capture_step (fs : List String) (path : String) (fileCreated recorded : Bool)
    (body : CaptureBody) : Option String × List String :=
  let fs1 := if fileCreated then path :: fs else fs
  let answer : Option String :=
    match body with
    | CaptureBody.completes outcome typed =>
      some (capture_answer recorded (transcribe_with_whisper outcome) typed)
    | CaptureBody.raises => none
  (answer, unlink_if_exists fs1 path)

/-- Outcome of the try-block body of `_transcribe_audio_bytes`: either the
write and transcription complete, or some step raises (caught by the
`except` clause, which returns the empty string). -/
inductive StTranscribeBody where
  | transcribed (outcome : TranscribeOutcome)
  | raised
deriving DecidableEq, Repr

/-- Model of `_transcribe_audio_bytes` (`streamlit_app.py` lines 85–103):
write the audio bytes to a temp file, transcribe with Whisper (returning
`""` when anything raises), and delete the temp file in the `finally`
block on every path. -/
def transcribe_audio_bytes (fs : List String) (path : String)
    (body : StTranscribeBody) : String × List String :=
  let fs1 := path :: fs
  let result :=
    match body with
    | StTranscribeBody.transcribed outcome => transcribe_with_whisper outcome
    | StTranscribeBody.raised => ""
  (result, unlink_if_exists fs1 path)

/-! ## Helper lemmas -/

theorem update_persona_of_truthy (current : Option String) (sd : SessionData)
    (p : Option String) (h : pTruthy current = true) :
    update_persona current sd p = (current, sd) := by
  unfold update_persona
  simp [h]

theorem update_persona_qa_list (current : Option String) (sd : SessionData)
    (p : Option String) : (update_persona current sd p).2.qa_list = sd.qa_list := by
  unfold update_persona
  split <;> rfl

theorem cliCommit_session_qa (st : CliState) (inp : TurnInput) :
    ∃ e : QAEntry, e.turn = st.turn_index + 1 ∧
      (cliCommit st inp).session_data.qa_list = st.session_data.qa_list ++ [e] := by
  refine ⟨{ turn := st.turn_index + 1
            round := inp.response.next_round.getD "unknown"
            question := (inp.response.next_question.getD defaultNextQuestion).text.getD
              "Please answer this question."
            answer_text := capture_answer inp.recorded
              (transcribe_with_whisper inp.transcribe_outcome) inp.typed_fallback
            technical_evaluation := none }, rfl, ?_⟩
  show (update_persona st.interviewer_persona st.session_data
      inp.response.persona).2.qa_list ++ _ = _
  rw [update_persona_qa_list]

theorem cliCommit_consistent (st : CliState) (inp : TurnInput) :
    (cliCommit st inp).conversation_state = (cliCommit st inp).session_data.qa_list ∧
      (cliCommit st inp).persisted = some (cliCommit st inp).session_data :=
  ⟨rfl, rfl⟩

theorem cliCommit_turn_index (st : CliState) (inp : TurnInput) :
    (cliCommit st inp).turn_index = st.turn_index + 1 := rfl

theorem cliTurn_state (st : CliState) (inp : TurnInput) :
    (cliTurn st inp).state = cliCommit st inp := rfl

theorem cliTurn_stop (st : CliState) (inp : TurnInput) :
    (cliTurn st inp).stop = stopOf inp := rfl

/-- The entries of a list carry consecutive turn numbers starting at `s`. -/
def turnsFrom (s : Nat) : List QAEntry → Prop
  | [] => True
  | e :: rest => e.turn = s ∧ turnsFrom (s + 1) rest

theorem turnsFrom_append {s : Nat} {l₁ l₂ : List QAEntry}
    (h₁ : turnsFrom s l₁) (h₂ : turnsFrom (s + l₁.length) l₂) :
    turnsFrom s (l₁ ++ l₂) := by
  induction l₁ generalizing s with
  | nil => simpa using h₂
  | cons e rest ih =>
    obtain ⟨he, hrest⟩ := h₁
    refine ⟨he, ih hrest ?_⟩
    have heq : s + 1 + rest.length = s + (e :: rest).length := by
      simp only [List.length_cons]
      omega
    rw [heq]
    exact h₂

theorem turnsFrom_get {l : List QAEntry} {s : Nat} (h : turnsFrom s l) :
    ∀ (i : Nat) (hi : i < l.length), (l.get ⟨i, hi⟩).turn = s + i := by
  induction l generalizing s with
  | nil => intro i hi; simp at hi
  | cons e rest ih =>
    intro i hi
    obtain ⟨he, hrest⟩ := h
    cases i with
    | zero => simpa using he
    | succ j =>
      have hj : j < rest.length := by
        simp only [List.length_cons] at hi
        omega
      have h1 := ih hrest j hj
      have h2 : (e :: rest).get ⟨j + 1, hi⟩ = rest.get ⟨j, hj⟩ := rfl
      rw [h2, h1]
      omega

/-- Loop invariant of the CLI session: the external counter agrees with the
committed length, and the committed turns are `1, 2, …`. -/
def cliInv (st : CliState) : Prop :=
  st.turn_index = st.session_data.qa_list.length ∧
    turnsFrom 1 st.session_data.qa_list

theorem cliCommit_inv {st : CliState} (inp : TurnInput) (h : cliInv st) :
    cliInv (cliCommit st inp) := by
  obtain ⟨hlen, hturns⟩ := h
  obtain ⟨e, he, hqa⟩ := cliCommit_session_qa st inp
  constructor
  · rw [hqa, cliCommit_turn_index, hlen]
    simp
  · rw [hqa]
    refine turnsFrom_append hturns ?_
    refine ⟨?_, trivial⟩
    omega

theorem cliRun_inv (script : List TurnInput) :
    ∀ st : CliState, cliInv st → cliInv (cliRun st script).1 := by
  induction script with
  | nil => intro st h; exact h
  | cons inp rest ih =>
    intro st h
    have hstep : cliInv (cliTurn st inp).state := cliCommit_inv inp h
    unfold cliRun
    cases hs : (cliTurn st inp).stop with
    | some r => simpa [hs] using hstep
    | none => simpa [hs] using ih (cliTurn st inp).state hstep

theorem cliInv_initial (profile : CandidateProfile) (fm ts : String) :
    cliInv (initialCliState profile fm ts) :=
  ⟨rfl, trivial⟩

theorem cliRun_reason_calls (script : List TurnInput) :
    ∀ st : CliState, (cliRun st script).2.1 = firstStop script ∧
      (cliRun st script).2.2 = turnsTaken script := by
  induction script with
  | nil => intro st; exact ⟨rfl, rfl⟩
  | cons inp rest ih =>
    intro st
    unfold cliRun firstStop turnsTaken
    rw [cliTurn_stop]
    cases hs : stopOf inp with
    | some r => simp [hs]
    | none =>
      obtain ⟨h₁, h₂⟩ := ih (cliTurn st inp).state
      simp [hs, h₁, h₂]

theorem setLastEval_spec (l : List QAEntry) (e : QAEntry) (ev : TechEval) :
    setLastEval (l ++ [e]) ev = l ++ [{ e with technical_evaluation := some ev }] := by
  induction l with
  | nil => rfl
  | cons x rest ih =>
    cases rest with
    | nil => rfl
    | cons y t =>
      show x :: setLastEval ((y :: t) ++ [e]) ev = _
      rw [ih]
      rfl

theorem not_mem_unlink_if_exists (fs : List String) (p : String) :
    p ∉ unlink_if_exists fs p := by
  unfold unlink_if_exists
  split
  · intro hmem
    have := List.of_mem_filter hmem
    simp at this
  · intro hmem
    simp_all

/-! ## Concrete session fixtures (used by the witnesses) -/

/-- Profile of the spec scenario candidate. -/
def samProfile : CandidateProfile :=
  { user_name := "Sam", target_role := "SDE", experience_level := "mid",
    company_type := "startup", job_description := none }

/-- A fresh Streamlit session right after `_start_new_session`. -/
def freshStState : StState :=
  { session_path := some "sessions/Sam_20260101_000000.json"
    session_data := initialSessionData samProfile "coaching" "20260101_000000"
    conversation_state := []
    latest_answer_text := ""
    interviewer_persona := none
    phase := Phase.awaitConsent
    current_question_struct := none
    current_round := none
    current_question_text := none
    current_end_interview := false
    persisted := none }

/-- A well-formed first interviewer response. -/
def warmupResponse : InterviewerJson :=
  { persona := some "Alex"
    next_round := some "warmup"
    next_question := some
      { question_type := some "generic", skill_tags := some [],
        text := some "Tell me about a recent project." }
    end_interview := some false }

/-- Turn inputs where recording failed and the candidate typed the answer. -/
def typedTurnInput : TurnInput :=
  { response := warmupResponse
    recorded := false
    transcribe_outcome := TranscribeOutcome.engineError
    typed_fallback := "Built a caching layer."
    continue_choice := "" }

/-- Turn inputs whose response signals the end of the interview. -/
def endTurnInput : TurnInput :=
  { response :=
      { persona := none
        next_round := some "closing"
        next_question := some
          { question_type := some "generic", skill_tags := some [],
            text := some "That concludes the interview." }
        end_interview := some true }
    recorded := true
    transcribe_outcome := TranscribeOutcome.transcribed (some " Thank you. ")
    typed_fallback := ""
    continue_choice := "" }

/-! ## Claim theorems -/

/-- Claim C2: for every backend response string that is not valid JSON, the
interviewer adapter returns the degraded response — persona null,
next_round "unknown", question_type "generic", empty skill tags, the raw
response string as the question text, end_interview false — and, being a
total function, never raises on malformed backend output. -/
theorem malformed_interviewer_response_degrades
    (parse : String → Option InterviewerJson) (content : String)
    (h : parse content = none) :
    ask_interviewer_question parse content =
      { persona := none
        next_round := some "unknown"
        next_question := some
          { question_type := some "generic", skill_tags := some [],
            text := some content }
        end_interview := some false } := by
  unfold ask_interviewer_question
  rw [h]
  rfl

theorem malformed_interviewer_response_degrades_witness :
    ask_interviewer_question (fun _ => none) "I refuse to answer in JSON." =
      { persona := none
        next_round := some "unknown"
        next_question := some
          { question_type := some "generic", skill_tags := some [],
            text := some "I refuse to answer in JSON." }
        end_interview := some false } :=
  malformed_interviewer_response_degrades (fun _ => none)
    "I refuse to answer in JSON." rfl

/-- Claim C6: answer capture is total — on every recording result,
transcription outcome and typed input it yields a string, namely the
transcription or the stripped typed answer; whenever spoken capture failed
or the transcription strips to empty, the stripped typed answer is used
before the turn proceeds; hence an empty spoken result is never committed
when a non-empty typed fallback was given. -/
theorem answer_capture_total_with_fallback (recorded : Bool)
    (outcome : TranscribeOutcome) (typed : String) :
    (capture_answer recorded (transcribe_with_whisper outcome) typed
        = transcribe_with_whisper outcome
      ∨ capture_answer recorded (transcribe_with_whisper outcome) typed = pyStrip typed)
    ∧ ((recorded = false ∨ pyStrip (transcribe_with_whisper outcome) = "") →
        capture_answer recorded (transcribe_with_whisper outcome) typed = pyStrip typed)
    ∧ (pyStrip (transcribe_with_whisper outcome) = "" → pyStrip typed ≠ "" →
        capture_answer recorded (transcribe_with_whisper outcome) typed ≠ "") := by
  refine ⟨?_, ?_, ?_⟩
  · cases recorded with
    | false => right; rfl
    | true =>
      by_cases htr : pyStrip (transcribe_with_whisper outcome) = ""
      · right; simp [capture_answer, htr]
      · left; simp [capture_answer, htr]
  · intro h
    cases recorded with
    | false => rfl
    | true =>
      rcases h with h | h
      · exact absurd h (by simp)
      · simp [capture_answer, h]
  · intro h1 h2
    cases recorded with
    | false =>
      show pyStrip typed ≠ ""
      exact h2
    | true =>
      simpa [capture_answer, h1] using h2

theorem answer_capture_total_with_fallback_witness :
    capture_answer true (transcribe_with_whisper TranscribeOutcome.cancelledByUser)
      " I would use a hash map. " = pyStrip " I would use a hash map. " :=
  (answer_capture_total_with_fallback true TranscribeOutcome.cancelledByUser
      " I would use a hash map. ").2.1 (Or.inr (by decide))

/-- Claim C7: the temporary audio file does not exist once the
capture-and-transcribe step completes, on every exit path of both surfaces —
full, partial or failed recording, successful, empty, cancelled or failed
transcription, and the raising paths alike. -/
theorem temp_audio_deleted_on_all_paths (fs : List String) (path : String)
    (fileCreated recorded : Bool) (body : CaptureBody) (stBody : StTranscribeBody) :
    path ∉ (cli_capture_step fs path fileCreated recorded body).2
    ∧ path ∉ (transcribe_audio_bytes fs path stBody).2 :=
  ⟨not_mem_unlink_if_exists _ _, not_mem_unlink_if_exists _ _⟩

/-- Claim C9: obtaining the backend client fails exactly when the
OPENROUTER_API_KEY credential is absent (unset or empty, i.e. falsy) or
client construction fails; the client is acquired before the interview loop
starts, so a session with a missing credential surfaces an explicit error
and performs zero interviewer calls. -/
theorem backend_credential_gate (api_key : Option String) (constructOk : Bool)
    (profile : CandidateProfile) (fm ts : String) (script : List TurnInput) :
    ((∃ e, get_openrouter_client api_key constructOk = Except.error e) ↔
      (pTruthy api_key = false ∨ constructOk = false))
    ∧ (pTruthy api_key = false →
        (∃ e, start_voice_interview_session api_key constructOk profile fm ts script
            = Except.error e)
        ∧ sessionAgentCalls
            (start_voice_interview_session api_key constructOk profile fm ts script)
          = 0) := by
  cases hk : pTruthy api_key <;> cases hok : constructOk <;>
    simp [get_openrouter_client, start_voice_interview_session, sessionAgentCalls,
      hk, hok]

theorem backend_credential_gate_witness :
    sessionAgentCalls
      (start_voice_interview_session none true samProfile "coaching"
        "20260101_000000" [typedTurnInput]) = 0 :=
  ((backend_credential_gate none true samProfile "coaching" "20260101_000000"
      [typedTurnInput]).2 rfl).2

/-- CLI state in which the persona "Alex" has already been stored. -/
def alexCliState : CliState :=
  { session_data :=
      { candidate_profile := samProfile, feedback_mode := "coaching",
        qa_list := [], interviewer_persona := some "Alex",
        created_at_utc := "20260101_000000", coach_feedback := none }
    conversation_state := []
    latest_answer_text := ""
    interviewer_persona := some "Alex"
    turn_index := 1
    persisted := none }

/-- Streamlit state in which the persona "Alex" has already been stored. -/
def alexStState : StState :=
  { session_path := some "sessions/Sam_20260101_000000.json"
    session_data :=
      { candidate_profile := samProfile, feedback_mode := "coaching",
        qa_list := [], interviewer_persona := some "Alex",
        created_at_utc := "20260101_000000", coach_feedback := none }
    conversation_state := []
    latest_answer_text := ""
    interviewer_persona := some "Alex"
    phase := Phase.awaitNext
    current_question_struct := none
    current_round := none
    current_question_text := none
    current_end_interview := false
    persisted := none }

/-- A later response carrying a different non-null persona. -/
def morganResponse : InterviewerJson :=
  { persona := some "Morgan"
    next_round := some "technical"
    next_question := some
      { question_type := some "generic", skill_tags := some [],
        text := some "How would you scale the cache?" }
    end_interview := some false }

/-- Turn inputs carrying the rival-persona response. -/
def morganTurnInput : TurnInput :=
  { response := morganResponse
    recorded := false
    transcribe_outcome := TranscribeOutcome.engineError
    typed_fallback := "Shard by key."
    continue_choice := "" }

/-- Claim C3: once the interviewer persona has been stored from a response,
no later response changes it — in a CLI turn and in a Streamlit question
fetch alike, both the in-memory persona and the session record persona stay
unchanged, whatever (possibly different, non-null) persona the new response
carries. -/
theorem persona_freeze (st : CliState) (inp : TurnInput) (sst : StState)
    (parse : String → Option InterviewerJson) (content : String)
    (h1 : pTruthy st.interviewer_persona = true)
    (h2 : pTruthy sst.interviewer_persona = true) :
    ((cliTurn st inp).state.interviewer_persona = st.interviewer_persona
      ∧ (cliTurn st inp).state.session_data.interviewer_persona
          = st.session_data.interviewer_persona)
    ∧ ((st_fetch_question sst parse content).interviewer_persona
        = sst.interviewer_persona
      ∧ (st_fetch_question sst parse content).session_data.interviewer_persona
          = sst.session_data.interviewer_persona) := by
  have hcli := update_persona_of_truthy st.interviewer_persona st.session_data
    inp.response.persona h1
  have hst := update_persona_of_truthy sst.interviewer_persona sst.session_data
    (ask_interviewer_question parse content).persona h2
  refine ⟨⟨?_, ?_⟩, ?_, ?_⟩
  · show (update_persona st.interviewer_persona st.session_data
      inp.response.persona).1 = _
    rw [hcli]
  · show (update_persona st.interviewer_persona st.session_data
      inp.response.persona).2.interviewer_persona = _
    rw [hcli]
  · show (update_persona sst.interviewer_persona sst.session_data
      (ask_interviewer_question parse content).persona).1 = _
    rw [hst]
  · show (update_persona sst.interviewer_persona sst.session_data
      (ask_interviewer_question parse content).persona).2.interviewer_persona = _
    rw [hst]

theorem persona_freeze_witness :
    (cliTurn alexCliState morganTurnInput).state.interviewer_persona = some "Alex" :=
  ((persona_freeze alexCliState morganTurnInput alexStState
      (fun _ => some morganResponse) "" (by decide) (by decide)).1.1).trans rfl

/-- Claim C4: after every commit — any CLI turn and any Streamlit append —
the qa_list fed to the next interviewer call is exactly the qa_list of the
session record just persisted, and at session start both are empty: the two
never diverge. -/
theorem qa_list_state_consistency (st : CliState) (inp : TurnInput)
    (sst : StState) (q r a : String) (profile : CandidateProfile) (fm ts : String)
    (hp : sst.session_path.isSome = true) :
    ((cliTurn st inp).state.conversation_state
        = (cliTurn st inp).state.session_data.qa_list
      ∧ (cliTurn st inp).state.persisted = some (cliTurn st inp).state.session_data)
    ∧ ((append_qa_to_session sst q r a).conversation_state
        = (append_qa_to_session sst q r a).session_data.qa_list
      ∧ (append_qa_to_session sst q r a).persisted
          = some (append_qa_to_session sst q r a).session_data)
    ∧ (initialCliState profile fm ts).conversation_state
        = (initialCliState profile fm ts).session_data.qa_list := by
  obtain ⟨p, hp2⟩ := Option.isSome_iff_exists.mp hp
  refine ⟨⟨rfl, rfl⟩, ?_, rfl⟩
  unfold append_qa_to_session
  rw [hp2]
  exact ⟨rfl, rfl⟩

theorem qa_list_state_consistency_witness :
    (append_qa_to_session freshStState "Tell me about a recent project." "warmup"
        "Built a caching layer.").conversation_state
      = (append_qa_to_session freshStState "Tell me about a recent project." "warmup"
          "Built a caching layer.").session_data.qa_list :=
  (qa_list_state_consistency (initialCliState samProfile "coaching" "20260101_000000")
      typedTurnInput freshStState "Tell me about a recent project." "warmup"
      "Built a caching layer." samProfile "coaching" "20260101_000000" rfl).2.1.1

/-- Claim C5: over any input script the CLI loop stops exactly with the
first end-signal or user-quit decision (and is still running when the
script carries neither), executing exactly one interviewer call per turn
taken; a turn whose response carries end_interview commits and persists its
answer and breaks immediately, with no continue prompt and no further
interviewer call. -/
theorem cli_termination_characterization (st : CliState) (script : List TurnInput)
    (inp : TurnInput) (h : inp.response.end_interview.getD false = true) :
    (cliRun st script).2.1 = firstStop script
    ∧ (cliRun st script).2.2 = turnsTaken script
    ∧ (cliTurn st inp).stop = some StopReason.endSignal
    ∧ (cliTurn st inp).prompted_next = false
    ∧ (∃ e : QAEntry, (cliTurn st inp).state.session_data.qa_list
        = st.session_data.qa_list ++ [e])
    ∧ (cliTurn st inp).state.persisted = some (cliTurn st inp).state.session_data := by
  obtain ⟨h1, h2⟩ := cliRun_reason_calls script st
  refine ⟨h1, h2, ?_, ?_, ?_, rfl⟩
  · rw [cliTurn_stop]
    unfold stopOf
    rw [h]
    rfl
  · show (!inp.response.end_interview.getD false) = false
    rw [h]
    rfl
  · obtain ⟨e, _, he⟩ := cliCommit_session_qa st inp
    exact ⟨e, he⟩

theorem cli_termination_characterization_witness :
    (cliTurn (initialCliState samProfile "coaching" "20260101_000000")
        endTurnInput).stop = some StopReason.endSignal :=
  (cli_termination_characterization
      (initialCliState samProfile "coaching" "20260101_000000") [] endTurnInput
      rfl).2.2.1

/-- Claim C8: on a backend response that is not valid JSON the coach adapter
returns the minimal feedback object carrying only the raw text, without
raising; every coach-page invocation — successful or degraded, over any
parse outcome and any content — leaves the input qa_list unchanged; and
re-invoking the coach page, with any parse outcomes, merely overwrites the
previously stored coach_feedback. -/
theorem coach_degrades_and_preserves_qa_list (sst : StState)
    (parse : String → Option CoachJson) (content : String)
    (h : parse content = none) :
    analyze_with_coach parse content = CoachResult.raw_feedback content
    ∧ (∀ (pr : String → Option CoachJson) (c : String),
        (coach_page sst pr c).session_data.qa_list = sst.session_data.qa_list)
    ∧ (∀ (pr p2 : String → Option CoachJson) (c c2 : String),
        coach_page (coach_page sst pr c) p2 c2 = coach_page sst p2 c2) := by
  refine ⟨?_, ?_, ?_⟩
  · unfold analyze_with_coach
    rw [h]
  · intro pr c
    unfold coach_page
    cases hqa : sst.session_data.qa_list with
    | nil => exact hqa
    | cons x t => exact hqa
  · intro pr p2 c c2
    cases hqa : sst.session_data.qa_list with
    | nil =>
      have hfix : coach_page sst pr c = sst := by
        unfold coach_page
        rw [hqa]
      rw [hfix]
    | cons x t =>
      cases hpath : sst.session_path with
      | none => simp [coach_page, hqa, hpath]
      | some p => simp [coach_page, hqa, hpath]

theorem coach_degrades_and_preserves_qa_list_witness :
    analyze_with_coach (fun _ => none) "Great energy, tighten the structure."
      = CoachResult.raw_feedback "Great energy, tighten the structure." :=
  (coach_degrades_and_preserves_qa_list freshStState (fun _ => none)
      "Great energy, tighten the structure." rfl).1

theorem append_qa_spec (st : StState) (q r a : String) (p : String)
    (hp : st.session_path = some p) :
    append_qa_to_session st q r a =
      { st with
        session_data :=
          { st.session_data with qa_list := st.session_data.qa_list ++
              [{ turn := st.session_data.qa_list.length + 1, round := r, question := q,
                 answer_text := a, technical_evaluation := none }] }
        conversation_state := st.session_data.qa_list ++
          [{ turn := st.session_data.qa_list.length + 1, round := r, question := q,
             answer_text := a, technical_evaluation := none }]
        persisted := some { st.session_data with qa_list := st.session_data.qa_list ++
          [{ turn := st.session_data.qa_list.length + 1, round := r, question := q,
             answer_text := a, technical_evaluation := none }] } } := by
  unfold append_qa_to_session
  rw [hp]

theorem attach_after_snoc (st : StState) (ev : TechEval) (l : List QAEntry)
    (e : QAEntry) (p : String)
    (hqa : st.session_data.qa_list = l ++ [e])
    (hp : st.session_path = some p) :
    (attach_technical_evaluation st ev).session_data.qa_list
        = l ++ [{ e with technical_evaluation := some ev }]
    ∧ (attach_technical_evaluation st ev).persisted
        = some (attach_technical_evaluation st ev).session_data := by
  unfold attach_technical_evaluation
  rw [hqa, hp]
  cases l with
  | nil => exact ⟨setLastEval_spec [] e ev, rfl⟩
  | cons x t => exact ⟨setLastEval_spec (x :: t) e ev, rfl⟩

/-! ## Claim C1 -/

/-- An entry appended to the session record out of band (its turn number is
unrelated to its position). -/
def outOfBandEntry : QAEntry :=
  { turn := 7, round := "technical", question := "Q7", answer_text := "A7",
    technical_evaluation := none }

/-- CLI state holding one out-of-band entry while the loop counter still
reads 0. -/
def outOfBandCliState : CliState :=
  { session_data :=
      { candidate_profile := samProfile, feedback_mode := "coaching",
        qa_list := [outOfBandEntry], interviewer_persona := none,
        created_at_utc := "20260101_000000", coach_feedback := none }
    conversation_state := [outOfBandEntry]
    latest_answer_text := ""
    interviewer_persona := none
    turn_index := 0
    persisted := none }

/-- Claim C1 counterexample: the CLI commit takes the turn number from the
external loop counter `turn_index`, not from `len(qa_list) + 1` — committing
from a state holding one out-of-band entry assigns turn
`turn_index + 1 = 1` although `len(qa_list) + 1 = 2`, leaving the gapped
turn sequence `[7, 1]` instead of self-healing. -/
theorem turn_counter_counterexample :
    ((cliTurn outOfBandCliState typedTurnInput).state.session_data.qa_list.map
        QAEntry.turn = [7, 1])
    ∧ outOfBandCliState.session_data.qa_list.length + 1 = 2 := by
  exact ⟨rfl, rfl⟩

/-- Claim C1 (amended): the Streamlit commit derives the turn number as
`len(qa_list) + 1`; the CLI commit takes it from the loop counter
`turn_index`, which coincides with `len(qa_list) + 1` on every session the
controller runs from its initial state (no out-of-band appends) — so on
every such run, and after every Streamlit commit onto an already
well-numbered list, entry i carries turn i + 1 with no gaps. -/
theorem turn_numbering_amended (profile : CandidateProfile) (fm ts : String)
    (script : List TurnInput) (sst : StState) (q r a : String) (p : String)
    (hp : sst.session_path = some p)
    (hinv : turnsFrom 1 sst.session_data.qa_list) :
    (∀ (i : Nat) (hi : i < (cliRun (initialCliState profile fm ts)
          script).1.session_data.qa_list.length),
        ((cliRun (initialCliState profile fm ts) script).1.session_data.qa_list.get
            ⟨i, hi⟩).turn = i + 1)
    ∧ (append_qa_to_session sst q r a).session_data.qa_list
        = sst.session_data.qa_list ++
            [{ turn := sst.session_data.qa_list.length + 1, round := r, question := q,
               answer_text := a, technical_evaluation := none }]
    ∧ (∀ (i : Nat)
          (hi : i < (append_qa_to_session sst q r a).session_data.qa_list.length),
        ((append_qa_to_session sst q r a).session_data.qa_list.get ⟨i, hi⟩).turn
          = i + 1) := by
  have happ := append_qa_spec sst q r a p hp
  have hrun := cliRun_inv script _ (cliInv_initial profile fm ts)
  refine ⟨?_, ?_, ?_⟩
  · intro i hi
    have hg := turnsFrom_get hrun.2 i hi
    omega
  · rw [happ]
  · intro i hi
    have ht : turnsFrom 1 (append_qa_to_session sst q r a).session_data.qa_list := by
      rw [happ]
      show turnsFrom 1 (sst.session_data.qa_list ++ [_])
      refine turnsFrom_append hinv ⟨?_, trivial⟩
      show sst.session_data.qa_list.length + 1 = 1 + sst.session_data.qa_list.length
      omega
    have hg := turnsFrom_get ht i hi
    omega

theorem turn_numbering_amended_witness :
    (append_qa_to_session freshStState "What is a hash map?" "warmup"
        "A key-value structure.").session_data.qa_list
      = freshStState.session_data.qa_list ++
          [{ turn := freshStState.session_data.qa_list.length + 1, round := "warmup",
             question := "What is a hash map?",
             answer_text := "A key-value structure.",
             technical_evaluation := none }] :=
  (turn_numbering_amended samProfile "coaching" "20260101_000000" [] freshStState
      "What is a hash map?" "warmup" "A key-value structure."
      "sessions/Sam_20260101_000000.json" rfl trivial).2.1

/-! ## Claim C10 -/

/-- An interviewer response asking a SQL coding question. -/
def sqlResponse : InterviewerJson :=
  { persona := none
    next_round := some "technical"
    next_question := some
      { question_type := some "sql", skill_tags := some ["sql"],
        text := some "Write a query returning all users." }
    end_interview := some false }

/-- Streamlit state awaiting the answer to the SQL coding question. -/
def codingStState : StState :=
  { session_path := some "sessions/Sam_20260101_000000.json"
    session_data := initialSessionData samProfile "coaching" "20260101_000000"
    conversation_state := []
    latest_answer_text := ""
    interviewer_persona := some "Alex"
    phase := Phase.awaitAnswer
    current_question_struct := some sqlResponse
    current_round := some "technical"
    current_question_text := some "Write a query returning all users."
    current_end_interview := false
    persisted := none }

/-- Claim C10: submitting a non-empty code answer for a coding-type question
(the code pad is shown exactly when `is_coding_question` holds of the current
question's type and tags) appends the committed entry and attaches the
technical evaluation produced for it to exactly that entry — every other
field of the entry, and every earlier entry, is unchanged — and re-persists
the full session record including it. -/
theorem technical_evaluation_attachment (sst : StState) (code_text : String)
    (tech_eval : TechEval) (p q r : String)
    (hpath : sst.session_path = some p)
    (hq : sst.current_question_text = some q)
    (hqne : q ≠ "")
    (hr : sst.current_round = some r)
    (hphase : sst.phase = Phase.awaitAnswer)
    (hcoding : is_coding_question (stQuestionMeta sst).1 (stQuestionMeta sst).2 = true)
    (hcode : pyStrip code_text ≠ "") :
    (st_submit_code sst code_text tech_eval).session_data.qa_list
      = sst.session_data.qa_list ++
          [{ turn := sst.session_data.qa_list.length + 1
             round := r
             question := q
             answer_text := pyStrip code_text
             technical_evaluation := some tech_eval }]
    ∧ (st_submit_code sst code_text tech_eval).persisted
        = some (st_submit_code sst code_text tech_eval).session_data := by
  have hbe : (pyStrip code_text == "") = false := by
    simpa using hcode
  have hqt : pTruthy sst.current_question_text = true := by
    rw [hq]
    simp [pTruthy, hqne]
  have hp1 : ({ sst with latest_answer_text := pyStrip code_text } : StState).session_path
      = some p := hpath
  have happ := append_qa_spec { sst with latest_answer_text := pyStrip code_text }
    (sst.current_question_text.getD "") (sst.current_round.getD "") (pyStrip code_text)
    p hp1
  have hqa2 : (append_qa_to_session { sst with latest_answer_text := pyStrip code_text }
      (sst.current_question_text.getD "") (sst.current_round.getD "")
      (pyStrip code_text)).session_data.qa_list
        = sst.session_data.qa_list ++
          [{ turn := sst.session_data.qa_list.length + 1,
             round := sst.current_round.getD "",
             question := sst.current_question_text.getD "",
             answer_text := pyStrip code_text, technical_evaluation := none }] := by
    rw [happ]
  have hp2 : (append_qa_to_session { sst with latest_answer_text := pyStrip code_text }
      (sst.current_question_text.getD "") (sst.current_round.getD "")
      (pyStrip code_text)).session_path = some p := by
    rw [happ]
    exact hpath
  obtain ⟨ha1, ha2⟩ := attach_after_snoc
    (append_qa_to_session { sst with latest_answer_text := pyStrip code_text }
      (sst.current_question_text.getD "") (sst.current_round.getD "")
      (pyStrip code_text))
    tech_eval sst.session_data.qa_list
    { turn := sst.session_data.qa_list.length + 1, round := sst.current_round.getD "",
      question := sst.current_question_text.getD "", answer_text := pyStrip code_text,
      technical_evaluation := none }
    p hqa2 hp2
  have hfinal :
      (st_submit_code sst code_text tech_eval).session_data
        = (attach_technical_evaluation
            (append_qa_to_session { sst with latest_answer_text := pyStrip code_text }
              (sst.current_question_text.getD "") (sst.current_round.getD "")
              (pyStrip code_text)) tech_eval).session_data
      ∧ (st_submit_code sst code_text tech_eval).persisted
        = (attach_technical_evaluation
            (append_qa_to_session { sst with latest_answer_text := pyStrip code_text }
              (sst.current_question_text.getD "") (sst.current_round.getD "")
              (pyStrip code_text)) tech_eval).persisted := by
    unfold st_submit_code
    rw [if_neg (by rw [hphase]; exact fun hh => hh rfl)]
    rw [if_neg (by simp [hqt])]
    rw [if_neg (by simp [hbe])]
    constructor
    · dsimp only
      rw [apply_ite StState.session_data]
      dsimp only
      rw [ite_self]
    · dsimp only
      rw [apply_ite StState.persisted]
      dsimp only
      rw [ite_self]
  constructor
  · rw [hfinal.1, ha1, hq, hr]
    rfl
  · rw [hfinal.2, ha2, hfinal.1]

theorem technical_evaluation_attachment_witness :
    (st_submit_code codingStState "SELECT id FROM users"
        (evaluate_technical_answer "query is correct")).session_data.qa_list
      = codingStState.session_data.qa_list ++
          [{ turn := codingStState.session_data.qa_list.length + 1
             round := "technical"
             question := "Write a query returning all users."
             answer_text := pyStrip "SELECT id FROM users"
             technical_evaluation := some (evaluate_technical_answer "query is correct") }] :=
  (technical_evaluation_attachment codingStState "SELECT id FROM users"
      (evaluate_technical_answer "query is correct") "sessions/Sam_20260101_000000.json"
      "Write a query returning all users." "technical" rfl rfl (by decide) rfl rfl
      (by decide) (by decide)).1

end CtrlHire
